import Mathlib

/-!
Shallow embedding of the expx-dotenv package (src/dotenv.go, src/lookup.go).

Filesystem and process effects are explicit parameters: `Lookup.stat` models
the injected stat function stored in the Go struct, and the `OS` structure
carries the package-level calls os.Getwd, filepath.Dir, filepath.Join and
filepath.Abs.  Go error values are modelled by the inductive `Err`; each
constructor corresponds to one fmt.Errorf wrapping site of the source, so a
wrapped error is a constructor application and the wrapping context is
directly visible.  The walk of lookupDir can loop forever in Go (for example
when filepath.Dir is stationary and no stop condition holds), so the
embedding is fuel-indexed; `WalkOut.spin` marks fuel exhaustion and
corresponds to no Go behaviour.
-/

/-- Go error values.  `os` is an arbitrary underlying error (an OS error or
an error produced by user code); every other constructor records one
fmt.Errorf wrapping site of the source together with the context it adds. -/
inductive Err where
  /-- An arbitrary underlying error. -/
  | os (msg : String)
  /-- Wrap in FileExistsInDir, lookup.go line 162: stat failed on `path`. -/
  | statFailed (path : String) (cause : Err)
  /-- Wrap in Lookup, lookup.go line 87: searching for candidate set `files`. -/
  | lookingFor (files : List String) (cause : Err)
  /-- Wrap in lookupDir, lookup.go line 141: next parent dir of `dir`. -/
  | nextParent (dir : String) (cause : Err)
  /-- Wrap in nextParentDir, lookup.go line 189: os.Getwd failed. -/
  | getwdFailed (cause : Err)
  /-- Wrap in stopByRootCb, lookup.go line 220: root callback failed at `path`. -/
  | rootCbFailed (path : String) (cause : Err)
  /-- Wrap in nextParentDir, lookup.go line 202: root-marker probe of `fname` in `dir` failed. -/
  | rootFileExists (fname : String) (dir : String) (cause : Err)
  /-- Wrap in WithRootDir, lookup.go line 46: filepath.Abs failed on `path`. -/
  | absFailed (path : String) (cause : Err)
  /-- Wrap in Load, dotenv.go line 174: godotenv.Load failed on `files`. -/
  | godotenvFailed (files : List String) (cause : Err)
  deriving DecidableEq

/-- Result of one stat call.  lookup.go lines 159-164 distinguish exactly
three classes: success, an error in the os.ErrNotExist class, and any other
error. -/
inductive StatRes where
  | ok
  | notExist
  | err (e : Err)
  deriving DecidableEq

/-- The package-level OS and filepath calls used by the source. -/
structure OS where
  /-- os.Getwd. -/
  getwd : Except Err String
  /-- filepath.Dir. -/
  filepathDir : String → String
  /-- filepath.Join of a directory and a file name. -/
  filepathJoin : String → String → String
  /-- filepath.Abs. -/
  filepathAbs : String → Except Err String

/-- The Lookup struct of lookup.go lines 13-33. -/
structure Lookup where
  /-- lookupDepth: how many dirs may be checked before stopping; 0 (or
  anything non-positive) means not configured. -/
  lookupDepth : Int
  /-- rootCb: optional callback deciding whether to stop at a dir. -/
  rootCb : Option (String → Except Err Bool)
  /-- rootDir: dir to stop at. -/
  rootDir : String
  /-- rootFiles: file names marking a root dir. -/
  rootFiles : List String
  /-- stat: the injected stat function. -/
  stat : String → StatRes
  /-- err: deferred configuration error. -/
  err : Option Err

/-- WithDepth, lookup.go lines 38-41. -/
def Lookup.WithDepth (self : Lookup) (n : Int) : Lookup :=
  { self with lookupDepth := n }

/-- WithRootDir, lookup.go lines 44-51: absolutize path; on failure store the
wrapped error, on success store the absolute path. -/
def Lookup.WithRootDir (o : OS) (self : Lookup) (path : String) : Lookup :=
  match o.filepathAbs path with
  | .error e => { self with err := some (.absFailed path e) }
  | .ok absPath => { self with rootDir := absPath }

/-- WithRootFiles, lookup.go lines 55-58. -/
def Lookup.WithRootFiles (self : Lookup) (names : List String) : Lookup :=
  { self with rootFiles := names }

/-- WithRootCallback, lookup.go lines 68-72. -/
def Lookup.WithRootCallback (self : Lookup) (fn : String → Except Err Bool) :
    Lookup :=
  { self with rootCb := some fn }

/-- FileExistsInDir, lookup.go lines 154-165: join fname onto dirName unless
dirName is empty, then classify the stat result. -/
def Lookup.FileExistsInDir (o : OS) (self : Lookup) (dirName fname : String) :
    Except Err Bool :=
  let fname := if dirName ≠ "" then o.filepathJoin dirName fname else fname
  match self.stat fname with
  | .ok => .ok true
  | .notExist => .ok false
  | .err e => .error (.statFailed fname e)

/-- checkLookupDepth, lookup.go lines 172-180. -/
def Lookup.checkLookupDepth (self : Lookup) (curDepth : Int) : Int :=
  if self.lookupDepth > 0 then
    let curDepth := curDepth + 1
    if curDepth = self.lookupDepth then -1 else curDepth
  else curDepth

/-- stopByRootCb, lookup.go lines 214-223: no callback means continue;
a callback error is wrapped with the path. -/
def Lookup.stopByRootCb (self : Lookup) (path : String) : Except Err Bool :=
  match self.rootCb with
  | none => .ok false
  | some cb =>
    match cb path with
    | .error e => .error (.rootCbFailed path e)
    | .ok stopHere => .ok stopHere

/-- The root-marker loop of nextParentDir, lookup.go lines 200-207: probe
each configured root-marker name in curDir; an existing marker means stop,
a probe error is wrapped with the marker name and the dir. -/
def Lookup.checkRootFiles (o : OS) (self : Lookup) (curDir : String) :
    List String → Except Err Bool
  | [] => .ok false
  | fname :: rest =>
    match self.FileExistsInDir o curDir fname with
    | .error e => .error (.rootFileExists fname curDir e)
    | .ok true => .ok true
    | .ok false => self.checkRootFiles o curDir rest

/-- nextParentDir, lookup.go lines 185-209: resolve the lazy current-dir
sentinel via os.Getwd, then consult the callback, then root-dir equality,
then the root markers, and only then return filepath.Dir of the dir. -/
def Lookup.nextParentDir (o : OS) (self : Lookup) (curDir : String) :
    Except Err String :=
  match (if curDir = "" then
           match o.getwd with
           | .error e => Except.error (Err.getwdFailed e)
           | .ok dir => Except.ok dir
         else Except.ok curDir) with
  | .error e => .error e
  | .ok curDir =>
    match self.stopByRootCb curDir with
    | .error e => .error e
    | .ok stopHere =>
      if stopHere || curDir = self.rootDir then .ok ""
      else
        match self.checkRootFiles o curDir self.rootFiles with
        | .error e => .error e
        | .ok true => .ok ""
        | .ok false => .ok (o.filepathDir curDir)

/-- The candidate loop of lookupDir, lookup.go lines 127-133: probe each
candidate name in curDir, stopping at the first that exists; a probe error
propagates as is. -/
def Lookup.anyFileExists (o : OS) (self : Lookup) (curDir : String) :
    List String → Except Err Bool
  | [] => .ok false
  | name :: rest =>
    match self.FileExistsInDir o curDir name with
    | .error e => .error e
    | .ok true => .ok true
    | .ok false => self.anyFileExists o curDir rest

/-- Outcome of the lookupDir walk: the Go triple (found flag, dir, error),
plus `spin` for fuel exhaustion (no Go behaviour). -/
inductive WalkOut where
  | found (dir : String)
  | notFound
  | fail (e : Err)
  | spin
  deriving DecidableEq

/-- The loop of lookupDir, lookup.go lines 122-148, fuel-indexed.  Besides
the outcome it returns the list of directories in which the candidate probe
ran, in probe order; the Go code does not materialize this list, it is
recorded here only to state the depth invariant. -/
def Lookup.lookupDirAux (o : OS) (self : Lookup) (files : List String) :
    Nat → String → Int → WalkOut × List String
  | 0, _, _ => (.spin, [])
  | fuel + 1, curDir, depth =>
    match self.anyFileExists o curDir files with
    | .error e => (.fail e, [curDir])
    | .ok true => (.found curDir, [curDir])
    | .ok false =>
      let depth2 := self.checkLookupDepth depth
      if depth2 < 0 then (.notFound, [curDir])
      else
        match self.nextParentDir o curDir with
        | .error e => (.fail (.nextParent curDir e), [curDir])
        | .ok newDir =>
          if newDir = "" then (.notFound, [curDir])
          else
            let r := self.lookupDirAux o files fuel newDir depth2
            (r.1, curDir :: r.2)

/-- lookupDir, lookup.go lines 122-148: the walk starts at the empty-string
sentinel (current dir) with depth 0. -/
def Lookup.lookupDir (o : OS) (self : Lookup) (fuel : Nat)
    (files : List String) : WalkOut :=
  (self.lookupDirAux o files fuel "" 0).1

/-- The directories in which lookupDir probed the candidate set, in probe
order. -/
def Lookup.lookupDirVisited (o : OS) (self : Lookup) (fuel : Nat)
    (files : List String) : List String :=
  (self.lookupDirAux o files fuel "" 0).2

/-- The result-building loop of Lookup, lookup.go lines 94-104: re-probe
every candidate name against the winning dir, keep the ones that exist in
candidate order, joining each onto the dir when the dir is non-empty; a
probe error propagates as is, discarding the names collected so far. -/
def Lookup.collectFound (o : OS) (self : Lookup) (dir : String) :
    List String → Except Err (List String)
  | [] => .ok []
  | name :: rest =>
    match self.FileExistsInDir o dir name with
    | .error e => .error e
    | .ok true =>
      match self.collectFound o dir rest with
      | .error e => .error e
      | .ok found =>
        .ok ((if dir ≠ "" then o.filepathJoin dir name else name) :: found)
    | .ok false => self.collectFound o dir rest

/-- Outcome of one Lookup call: the found list (empty models the Go nil
result), an error, or fuel exhaustion. -/
inductive LookupOut where
  | ok (files : List String)
  | fail (e : Err)
  | spin
  deriving DecidableEq

/-- Lookup, lookup.go lines 80-109: return the stored configuration error if
any; run the walk, wrapping a walk error with the candidate set; not found
is the empty result with no error; otherwise build the result list from the
winning dir. -/
def Lookup.Lookup (o : OS) (self : Lookup) (fuel : Nat)
    (files : List String) : LookupOut :=
  match self.err with
  | some e => .fail e
  | none =>
    match self.lookupDir o fuel files with
    | .spin => .spin
    | .fail e => .fail (.lookingFor files e)
    | .notFound => .ok []
    | .found dir =>
      match self.collectFound o dir files with
      | .error e => .fail e
      | .ok foundFiles => .ok foundFiles

/-- The Loader struct of dotenv.go lines 38-43. -/
structure Loader where
  lookup : Lookup
  /-- envSuffix: suffix of .env files for the current environment. -/
  envSuffix : String

/-- envFiles, dotenv.go lines 188-199. -/
def Loader.envFiles (self : Loader) : List String :=
  if self.envSuffix = "" then [".env.local", ".env"]
  else
    [".env." ++ self.envSuffix ++ ".local", ".env.local",
     ".env." ++ self.envSuffix, ".env"]

/-- The callback loop of Load, dotenv.go lines 178-183.  A post-load
callback takes no argument, so it is modelled by the error value it
returns; running the callbacks returns the first error, if any. -/
def runCallbacks : List (Option Err) → Option Err
  | [] => none
  | cb :: rest =>
    match cb with
    | some e => some e
    | none => runCallbacks rest

/-- Outcome of one Load call. -/
inductive LoadOut where
  | ok
  | fail (e : Err)
  | spin
  deriving DecidableEq

/-- Load, dotenv.go lines 166-184.  The external collaborator godotenv.Load
is the parameter `apply` (none models a nil error); its error is wrapped
with the file list.  Callbacks run only after a successful (or skipped)
apply and stop at the first error. -/
def Loader.Load (o : OS) (apply : List String → Option Err) (self : Loader)
    (fuel : Nat) (callbacks : List (Option Err)) : LoadOut :=
  match Lookup.Lookup o self.lookup fuel self.envFiles with
  | .spin => .spin
  | .fail e => .fail e
  | .ok envs =>
    match (if 0 < envs.length then
             match apply envs with
             | some e => some (Err.godotenvFailed envs e)
             | none => none
           else none) with
    | some e => .fail e
    | none =>
      match runCallbacks callbacks with
      | some e => .fail e
      | none => .ok

/-- A Lookup value with nothing configured, as the zero value used by
NewLookup, over an always-absent filesystem. -/
def lookup0 : Lookup :=
  { lookupDepth := 0, rootCb := none, rootDir := "", rootFiles := [],
    stat := fun _ => .notExist, err := none }

/-- An OS whose parent function keeps producing fresh directories, so that a
walk with no stop condition never terminates. -/
def osSpin : OS :=
  { getwd := .ok "a", filepathDir := fun d => d ++ "a",
    filepathJoin := fun d n => d ++ "/" ++ n, filepathAbs := fun p => .ok p }

/-- An OS joining paths with a slash. -/
def osJoin : OS :=
  { getwd := .ok "/w", filepathDir := fun d => d,
    filepathJoin := fun d n => d ++ "/" ++ n, filepathAbs := fun p => .ok p }

/-- C1: the candidate filename list is a pure function of the configured
environment suffix: an empty suffix yields [".env.local", ".env"]; a
non-empty suffix s yields [".env." ++ s ++ ".local", ".env.local",
".env." ++ s, ".env"], in that order. -/
theorem C1_envFiles (l : Loader) :
    (l.envSuffix = "" → l.envFiles = [".env.local", ".env"]) ∧
    (l.envSuffix ≠ "" → l.envFiles =
      [".env." ++ l.envSuffix ++ ".local", ".env.local",
       ".env." ++ l.envSuffix, ".env"]) := by
  constructor <;> intro h <;> simp [Loader.envFiles, h]

/-- Witness for C1 at the empty suffix and at suffix "test". -/
theorem C1_envFiles_witness :
    Loader.envFiles ⟨lookup0, ""⟩ = [".env.local", ".env"] ∧
    Loader.envFiles ⟨lookup0, "test"⟩ =
      [".env." ++ "test" ++ ".local", ".env.local",
       ".env." ++ "test", ".env"] :=
  ⟨(C1_envFiles ⟨lookup0, ""⟩).1 rfl,
   (C1_envFiles ⟨lookup0, "test"⟩).2 (by decide)⟩

/-- C6: FileExistsInDir returns (true, nil) when stat succeeds, (false, nil)
when stat fails with the not-exists class, and (false, error wrapped with
the probed path) on any other stat failure; an empty directory name means
the file name is probed as is, without joining. -/
theorem C6_FileExistsInDir (o : OS) (self : Lookup) (dirName fname : String) :
    (dirName = "" →
      (self.stat fname = .ok →
        self.FileExistsInDir o dirName fname = .ok true) ∧
      (self.stat fname = .notExist →
        self.FileExistsInDir o dirName fname = .ok false) ∧
      (∀ e, self.stat fname = .err e →
        self.FileExistsInDir o dirName fname =
          .error (.statFailed fname e))) ∧
    (dirName ≠ "" →
      (self.stat (o.filepathJoin dirName fname) = .ok →
        self.FileExistsInDir o dirName fname = .ok true) ∧
      (self.stat (o.filepathJoin dirName fname) = .notExist →
        self.FileExistsInDir o dirName fname = .ok false) ∧
      (∀ e, self.stat (o.filepathJoin dirName fname) = .err e →
        self.FileExistsInDir o dirName fname =
          .error (.statFailed (o.filepathJoin dirName fname) e))) := by
  constructor <;> intro hd
  · refine ⟨fun h => ?_, fun h => ?_, fun e h => ?_⟩ <;>
      simp [Lookup.FileExistsInDir, hd, h]
  · refine ⟨fun h => ?_, fun h => ?_, fun e h => ?_⟩ <;>
      simp [Lookup.FileExistsInDir, hd, h]

/-- A stat function exercising the three result classes of C6. -/
def statC6 : String → StatRes := fun s =>
  if s = "x" then .ok
  else if s = "d" ++ "/" ++ "bad" then .err (.os "boom")
  else .notExist

/-- A Lookup over statC6. -/
def lookupC6 : Lookup := { lookup0 with stat := statC6 }

/-- Witness for C6: an existing bare name, an absent joined name, and a
failing joined name. -/
theorem C6_FileExistsInDir_witness :
    Lookup.FileExistsInDir osJoin lookupC6 "" "x" = .ok true ∧
    Lookup.FileExistsInDir osJoin lookupC6 "d" "gone" = .ok false ∧
    Lookup.FileExistsInDir osJoin lookupC6 "d" "bad" =
      .error (.statFailed (osJoin.filepathJoin "d" "bad") (.os "boom")) :=
  ⟨((C6_FileExistsInDir osJoin lookupC6 "" "x").1 rfl).1 rfl,
   (((C6_FileExistsInDir osJoin lookupC6 "d" "gone").2 (by decide)).2).1 rfl,
   (((C6_FileExistsInDir osJoin lookupC6 "d" "bad").2 (by decide)).2).2
     (.os "boom") rfl⟩

/-- C8: WithRootDir stores the absolutized path when filepath.Abs succeeds;
when it fails, the previous root directory is retained and the wrapped
failure is stored, and every subsequent Lookup call returns that stored
error immediately (for every fuel, in particular without walking). -/
theorem C8_WithRootDir (o : OS) (self : Lookup) (path : String) :
    (∀ a, o.filepathAbs path = .ok a →
      self.WithRootDir o path = { self with rootDir := a }) ∧
    (∀ e, o.filepathAbs path = .error e →
      (self.WithRootDir o path).rootDir = self.rootDir ∧
      (self.WithRootDir o path).err = some (.absFailed path e) ∧
      ∀ fuel files, Lookup.Lookup o (self.WithRootDir o path) fuel files =
        .fail (.absFailed path e)) := by
  constructor
  · intro a h
    simp [Lookup.WithRootDir, h]
  · intro e h
    refine ⟨?_, ?_, fun fuel files => ?_⟩ <;>
      simp [Lookup.WithRootDir, h, Lookup.Lookup]

/-- An OS whose filepath.Abs succeeds by prefixing. -/
def osAbsOk : OS := { osJoin with filepathAbs := fun p => .ok ("/abs/" ++ p) }

/-- An OS whose filepath.Abs always fails. -/
def osAbsBad : OS :=
  { osJoin with filepathAbs := fun p => .error (.os ("noabs " ++ p)) }

/-- Witness for C8: a succeeding and a failing absolutization. -/
theorem C8_WithRootDir_witness :
    Lookup.WithRootDir osAbsOk lookup0 "p" =
      { lookup0 with rootDir := "/abs/" ++ "p" } ∧
    (Lookup.WithRootDir osAbsBad lookup0 "p").rootDir = lookup0.rootDir ∧
    (Lookup.WithRootDir osAbsBad lookup0 "p").err =
      some (.absFailed "p" (.os ("noabs " ++ "p"))) ∧
    Lookup.Lookup osAbsBad (Lookup.WithRootDir osAbsBad lookup0 "p") 3 [".env"] =
      .fail (.absFailed "p" (.os ("noabs " ++ "p"))) :=
  ⟨(C8_WithRootDir osAbsOk lookup0 "p").1 ("/abs/" ++ "p") rfl,
   ((C8_WithRootDir osAbsBad lookup0 "p").2 (.os ("noabs " ++ "p")) rfl).1,
   ((C8_WithRootDir osAbsBad lookup0 "p").2 (.os ("noabs " ++ "p")) rfl).2.1,
   ((C8_WithRootDir osAbsBad lookup0 "p").2 (.os ("noabs " ++ "p")) rfl).2.2
     3 [".env"]⟩

/-- C10: a stored configuration error is sticky: WithDepth, WithRootFiles,
WithRootCallback and a succeeding WithRootDir all leave it in place (the
succeeding WithRootDir still updates the root directory), and every Lookup
call on such a value returns that same error. -/
theorem C10_sticky_err (o : OS) (self : Lookup) (e : Err)
    (he : self.err = some e) :
    (∀ n, (self.WithDepth n).err = some e) ∧
    (∀ names, (self.WithRootFiles names).err = some e) ∧
    (∀ fn, (self.WithRootCallback fn).err = some e) ∧
    (∀ path a, o.filepathAbs path = .ok a →
      (self.WithRootDir o path).err = some e ∧
      (self.WithRootDir o path).rootDir = a) ∧
    (∀ fuel files, Lookup.Lookup o self fuel files = .fail e) ∧
    (∀ path a, o.filepathAbs path = .ok a →
      ∀ fuel files,
        Lookup.Lookup o (self.WithRootDir o path) fuel files = .fail e) := by
  refine ⟨fun n => ?_, fun names => ?_, fun fn => ?_,
    fun path a h => ⟨?_, ?_⟩, fun fuel files => ?_,
    fun path a h fuel files => ?_⟩
  · simp [Lookup.WithDepth, he]
  · simp [Lookup.WithRootFiles, he]
  · simp [Lookup.WithRootCallback, he]
  · simp [Lookup.WithRootDir, h, he]
  · simp [Lookup.WithRootDir, h]
  · simp [Lookup.Lookup, he]
  · simp [Lookup.Lookup, Lookup.WithRootDir, h, he]

/-- A Lookup carrying a stored configuration error. -/
def lookupErr : Lookup := { lookup0 with err := some (.os "cfg") }

/-- Witness for C10: the error survives each setter and is returned by
Lookup. -/
theorem C10_sticky_err_witness :
    (lookupErr.WithDepth 2).err = some (.os "cfg") ∧
    (lookupErr.WithRootFiles ["go.mod"]).err = some (.os "cfg") ∧
    (Lookup.WithRootDir osAbsOk lookupErr "p").err = some (.os "cfg") ∧
    (Lookup.WithRootDir osAbsOk lookupErr "p").rootDir = "/abs/" ++ "p" ∧
    Lookup.Lookup osAbsOk lookupErr 3 [".env"] = .fail (.os "cfg") ∧
    Lookup.Lookup osAbsOk (Lookup.WithRootDir osAbsOk lookupErr "p") 3 [".env"] =
      .fail (.os "cfg") :=
  ⟨(C10_sticky_err osAbsOk lookupErr (.os "cfg") rfl).1 2,
   (C10_sticky_err osAbsOk lookupErr (.os "cfg") rfl).2.1 ["go.mod"],
   ((C10_sticky_err osAbsOk lookupErr (.os "cfg") rfl).2.2.2.1 "p"
     ("/abs/" ++ "p") rfl).1,
   ((C10_sticky_err osAbsOk lookupErr (.os "cfg") rfl).2.2.2.1 "p"
     ("/abs/" ++ "p") rfl).2,
   (C10_sticky_err osAbsOk lookupErr (.os "cfg") rfl).2.2.2.2.1 3 [".env"],
   (C10_sticky_err osAbsOk lookupErr (.os "cfg") rfl).2.2.2.2.2 "p"
     ("/abs/" ++ "p") rfl 3 [".env"]⟩

/-- C3: nextParentDir consults its stop conditions in order: the callback
first (its error or stop verdict decides the result for every root dir,
marker list and stat function), then equality with the configured root
directory (for every marker list and stat function, so no marker probe runs
at the root), then the marker files, and only when none triggers does it
return the filesystem parent. -/
theorem C3_nextParentDir (o : OS) (self : Lookup) (curDir : String)
    (hne : curDir ≠ "") :
    (∀ cb e, self.rootCb = some cb → cb curDir = .error e →
      self.nextParentDir o curDir = .error (.rootCbFailed curDir e)) ∧
    (∀ cb, self.rootCb = some cb → cb curDir = .ok true →
      self.nextParentDir o curDir = .ok "") ∧
    (self.stopByRootCb curDir = .ok false → curDir = self.rootDir →
      self.nextParentDir o curDir = .ok "") ∧
    (self.stopByRootCb curDir = .ok false → curDir ≠ self.rootDir →
      self.nextParentDir o curDir =
        (match self.checkRootFiles o curDir self.rootFiles with
         | .error e => .error e
         | .ok true => .ok ""
         | .ok false => .ok (o.filepathDir curDir))) := by
  refine ⟨fun cb e hcb he => ?_, fun cb hcb hstop => ?_,
    fun hcb heq => ?_, fun hcb hneq => ?_⟩
  · simp [Lookup.nextParentDir, Lookup.stopByRootCb, hne, hcb, he]
  · simp [Lookup.nextParentDir, Lookup.stopByRootCb, hne, hcb, hstop]
  · subst heq
    simp [Lookup.nextParentDir, hne, hcb]
  · simp [Lookup.nextParentDir, hne, hcb, hneq]

/-- A callback that always fails. -/
def cbErr : String → Except Err Bool := fun p => .error (.os ("cb " ++ p))

/-- A callback that always says stop. -/
def cbStop : String → Except Err Bool := fun _ => .ok true

/-- A Lookup whose stat always fails, so any marker probe would error. -/
def lookupCbErr : Lookup :=
  { lookup0 with
    rootCb := some cbErr, rootFiles := ["go.mod"],
    stat := fun _ => .err (.os "noprobe") }

/-- Same filesystem, but the callback stops instead of failing. -/
def lookupCbStop : Lookup := { lookupCbErr with rootCb := some cbStop }

/-- No callback, root dir equal to the visited dir, failing stat: the root
equality must win without any marker probe. -/
def lookupRootEq : Lookup :=
  { lookup0 with
    rootDir := "/x", rootFiles := ["go.mod"],
    stat := fun _ => .err (.os "noprobe") }

/-- No callback, marker file present in the visited dir. -/
def lookupMarker : Lookup :=
  { lookup0 with
    rootFiles := ["go.mod"],
    stat := fun s => if s = "/x" ++ "/" ++ "go.mod" then .ok else .notExist }

/-- Witness for C3: callback error wins over an erroring stat, callback stop
wins, root equality wins without probing, and the marker decides last. -/
theorem C3_nextParentDir_witness :
    Lookup.nextParentDir osJoin lookupCbErr "/x" =
      .error (.rootCbFailed "/x" (.os ("cb " ++ "/x"))) ∧
    Lookup.nextParentDir osJoin lookupCbStop "/x" = .ok "" ∧
    Lookup.nextParentDir osJoin lookupRootEq "/x" = .ok "" ∧
    Lookup.nextParentDir osJoin lookupMarker "/x" =
      (match Lookup.checkRootFiles osJoin lookupMarker "/x"
          lookupMarker.rootFiles with
       | .error e => .error e
       | .ok true => .ok ""
       | .ok false => .ok (osJoin.filepathDir "/x")) :=
  ⟨(C3_nextParentDir osJoin lookupCbErr "/x" (by decide)).1
     cbErr (.os ("cb " ++ "/x")) rfl rfl,
   (C3_nextParentDir osJoin lookupCbStop "/x" (by decide)).2.1 cbStop rfl rfl,
   (C3_nextParentDir osJoin lookupRootEq "/x" (by decide)).2.2.1 rfl rfl,
   (C3_nextParentDir osJoin lookupMarker "/x" (by decide)).2.2.2 rfl
     (by decide)⟩

/-- Each directory examined by the walk shortens the remaining depth budget:
from depth counter d with a positive configured limit, at most limit - d
directories are probed. -/
theorem lookupDirAux_length_le (o : OS) (self : Lookup) (files : List String)
    (fuel : Nat) :
    ∀ (c : String) (d : Int), 0 ≤ d → d < self.lookupDepth →
      ((Lookup.lookupDirAux o self files fuel c d).2.length : Int) ≤
        self.lookupDepth - d := by
  induction fuel with
  | zero =>
    intro c d h0 hd
    simp [Lookup.lookupDirAux]
    omega
  | succ fuel ih =>
    intro c d h0 hd
    have hpos : (0 : Int) < self.lookupDepth := lt_of_le_of_lt h0 hd
    unfold Lookup.lookupDirAux
    cases hA : self.anyFileExists o c files with
    | error e =>
      simp
      omega
    | ok b =>
      cases b with
      | true =>
        simp
        omega
      | false =>
        by_cases hEq : d + 1 = self.lookupDepth
        · have hck : self.checkLookupDepth d = -1 := by
            simp [Lookup.checkLookupDepth, hpos, hEq]
          simp [hck]
          omega
        · have hck : self.checkLookupDepth d = d + 1 := by
            simp [Lookup.checkLookupDepth, hpos, hEq]
          have hlt : ¬(d + 1 < 0) := by omega
          simp only [hck, if_neg hlt]
          cases hN : self.nextParentDir o c with
          | error e =>
            simp
            omega
          | ok newDir =>
            by_cases hnd : newDir = ""
            · simp [hnd]
              omega
            · simp only [if_neg hnd]
              have := ih newDir (d + 1) (by omega) (by omega)
              simp
              omega

/-- The first directory the walk probes is the one it starts from. -/
theorem lookupDirAux_head (o : OS) (self : Lookup) (files : List String)
    (fuel : Nat) (c : String) (d : Int) :
    ((Lookup.lookupDirAux o self files (fuel + 1) c d).2).head? = some c := by
  unfold Lookup.lookupDirAux
  cases self.anyFileExists o c files with
  | error e => simp
  | ok b =>
    cases b with
    | true => simp
    | false =>
      simp only
      split
      · simp
      · cases self.nextParentDir o c with
        | error e => simp
        | ok newDir =>
          by_cases hnd : newDir = "" <;> simp [hnd]

/-- With depth limit 1 and no candidate in the starting directory, the walk
stops right after the starting directory: not found, one dir examined. -/
theorem lookupDirAux_depth_one (o : OS) (self : Lookup) (files : List String)
    (fuel : Nat) (h1 : self.lookupDepth = 1)
    (hA : self.anyFileExists o "" files = .ok false) :
    Lookup.lookupDirAux o self files (fuel + 1) "" 0 = (.notFound, [""]) := by
  have hck : self.checkLookupDepth 0 = -1 := by
    simp [Lookup.checkLookupDepth, h1]
  unfold Lookup.lookupDirAux
  simp [hA, hck]

/-- Appending a character makes a string non-empty. -/
theorem append_a_ne (c : String) : c ++ "a" ≠ "" := by
  intro h
  have h2 := congrArg String.length h
  have h3 : ("a" : String).length = 1 := rfl
  have h4 : ("" : String).length = 0 := rfl
  rw [String.length_append, h3, h4] at h2
  omega

/-- Over osSpin with the unconfigured lookup0, every unit of fuel examines
one more directory: the walk with depth limit 0 probes exactly fuel
directories starting from any non-empty directory. -/
theorem spin_visited_length :
    ∀ (fuel : Nat) (c : String), c ≠ "" →
      ((Lookup.lookupDirAux osSpin lookup0 [".env"] fuel c 0).2).length =
        fuel := by
  intro fuel
  induction fuel with
  | zero =>
    intro c hc
    simp [Lookup.lookupDirAux]
  | succ fuel ih =>
    intro c hc
    have hA : Lookup.anyFileExists osSpin lookup0 c [".env"] = .ok false := by
      simp [Lookup.anyFileExists, Lookup.FileExistsInDir, hc, lookup0, osSpin]
    have hN : Lookup.nextParentDir osSpin lookup0 c = .ok (c ++ "a") := by
      simp [Lookup.nextParentDir, Lookup.stopByRootCb, Lookup.checkRootFiles,
        hc, lookup0, osSpin]
    have hck : Lookup.checkLookupDepth lookup0 0 = 0 := by
      simp [Lookup.checkLookupDepth, lookup0]
    unfold Lookup.lookupDirAux
    simp [hA, hN, hck, append_a_ne c, ih (c ++ "a") (append_a_ne c)]

/-- From the starting-directory sentinel, the osSpin walk with depth limit 0
examines exactly fuel directories: no bound holds. -/
theorem spin_visited_length_start (m : Nat) :
    (Lookup.lookupDirVisited osSpin lookup0 m [".env"]).length = m := by
  cases m with
  | zero => simp [Lookup.lookupDirVisited, Lookup.lookupDirAux]
  | succ m =>
    have hA : Lookup.anyFileExists osSpin lookup0 "" [".env"] = .ok false := by
      simp [Lookup.anyFileExists, Lookup.FileExistsInDir, lookup0, osSpin]
    have hN : Lookup.nextParentDir osSpin lookup0 "" = .ok ("a" ++ "a") := by
      simp [Lookup.nextParentDir, Lookup.stopByRootCb, Lookup.checkRootFiles,
        lookup0, osSpin]
    have hck : Lookup.checkLookupDepth lookup0 0 = 0 := by
      simp [Lookup.checkLookupDepth, lookup0]
    unfold Lookup.lookupDirVisited Lookup.lookupDirAux
    simp [hA, hN, hck, append_a_ne "a",
      spin_visited_length m "aa" (by decide)]

/-- C2: with a positive configured depth limit n, the walk examines at most
n directories whatever else happens (so in particular before declaring not
found); the starting directory is probed first whenever any directory is
probed at all; with limit exactly 1 and no candidate at the start, the walk
ends after the starting directory alone; and the unconfigured limit 0
imposes no bound: over osSpin the walk examines as many directories as it
is given fuel. -/
theorem C2_depth_invariant (o : OS) (self : Lookup) (files : List String)
    (fuel : Nat) :
    (0 < self.lookupDepth →
      ((Lookup.lookupDirVisited o self fuel files).length : Int) ≤
        self.lookupDepth) ∧
    (0 < fuel →
      (Lookup.lookupDirVisited o self fuel files).head? = some "") ∧
    (self.lookupDepth = 1 → Lookup.anyFileExists o self "" files = .ok false →
      0 < fuel →
      Lookup.lookupDirAux o self files fuel "" 0 = (.notFound, [""])) ∧
    (lookup0.lookupDepth ≤ 0 ∧
      ∀ m, (Lookup.lookupDirVisited osSpin lookup0 m [".env"]).length = m) := by
  refine ⟨fun h => ?_, fun h => ?_, fun h1 hA hf => ?_,
    ⟨by decide, spin_visited_length_start⟩⟩
  · have := lookupDirAux_length_le o self files fuel "" 0 le_rfl h
    simpa [Lookup.lookupDirVisited] using this
  · cases fuel with
    | zero => exact absurd h (by decide)
    | succ f => exact lookupDirAux_head o self files f "" 0
  · cases fuel with
    | zero => exact absurd hf (by decide)
    | succ f => exact lookupDirAux_depth_one o self files f h1 hA

/-- Witness for C2 at depth limits 2, 1 and fuel 9. -/
theorem C2_depth_invariant_witness :
    ((Lookup.lookupDirVisited osSpin (lookup0.WithDepth 2) 9 [".env"]).length :
      Int) ≤ (lookup0.WithDepth 2).lookupDepth ∧
    (Lookup.lookupDirVisited osSpin (lookup0.WithDepth 2) 9 [".env"]).head? =
      some "" ∧
    Lookup.lookupDirAux osSpin (lookup0.WithDepth 1) [".env"] 9 "" 0 =
      (.notFound, [""]) :=
  ⟨(C2_depth_invariant osSpin (lookup0.WithDepth 2) [".env"] 9).1 (by decide),
   (C2_depth_invariant osSpin (lookup0.WithDepth 2) [".env"] 9).2.1 (by decide),
   (C2_depth_invariant osSpin (lookup0.WithDepth 1) [".env"] 9).2.2.1
     (by decide) rfl (by decide)⟩

/-- When every re-probe answers without error, the result-building loop
keeps exactly the existing candidates, in candidate order, joining each
onto the dir when the dir is non-empty. -/
theorem collectFound_eq_filter (o : OS) (self : Lookup) (dir : String)
    (b : String → Bool) :
    ∀ (files : List String),
      (∀ n ∈ files, self.FileExistsInDir o dir n = .ok (b n)) →
      Lookup.collectFound o self dir files =
        .ok ((files.filter b).map
          (fun n => if dir ≠ "" then o.filepathJoin dir n else n)) := by
  intro files
  induction files with
  | nil =>
    intro _
    simp [Lookup.collectFound]
  | cons name rest ih =>
    intro h
    have hn := h name (List.mem_cons_self name rest)
    have hr := ih fun n hn2 => h n (List.mem_cons_of_mem _ hn2)
    cases hb : b name with
    | true =>
      rw [hb] at hn
      simp [Lookup.collectFound, hn, hr, List.filter_cons, hb]
    | false =>
      rw [hb] at hn
      simp [Lookup.collectFound, hn, hr, List.filter_cons, hb]

/-- C4: once the walk names a winning directory, Lookup re-probes every
candidate against it (not only the first that matched), keeps all that
exist in candidate order, joins each name onto the winning directory when
that directory is non-empty and leaves it bare when the winning directory
is the starting-directory sentinel, and delivers an empty result with no
error when nothing re-confirms (the filter being then empty). -/
theorem C4_result_building (o : OS) (self : Lookup) (files : List String)
    (fuel : Nat) (dir : String) (b : String → Bool)
    (herr : self.err = none)
    (hfound : self.lookupDir o fuel files = .found dir)
    (hprobe : ∀ n ∈ files, self.FileExistsInDir o dir n = .ok (b n)) :
    Lookup.Lookup o self fuel files =
      .ok ((files.filter b).map
        (fun n => if dir ≠ "" then o.filepathJoin dir n else n)) := by
  have hc := collectFound_eq_filter o self dir b files hprobe
  simp [Lookup.Lookup, herr, hfound, hc]

/-- A filesystem where both default candidates exist in the starting dir. -/
def statBothEnv : String → StatRes := fun s =>
  if s = ".env.local" then .ok else if s = ".env" then .ok else .notExist

/-- A Lookup over statBothEnv. -/
def lookupBoth : Lookup := { lookup0 with stat := statBothEnv }

/-- Witness for C4: both .env.local and .env exist in the winning starting
directory; the result keeps both, .env.local first, as bare names. -/
theorem C4_result_building_witness :
    Lookup.Lookup osSpin lookupBoth 1 [".env.local", ".env"] =
      .ok [".env.local", ".env"] := by
  rw [C4_result_building osSpin lookupBoth [".env.local", ".env"] 1 ""
    (fun _ => true) rfl rfl (by intro n hn; fin_cases hn <;> rfl)]
  decide

/-- C5: when the walk exhausts all directories finding nothing, Lookup
returns the empty result with no error, and Load is the result of running
only the callbacks, for every apply collaborator (so apply is never
invoked); with no callbacks Load succeeds. -/
theorem C5_not_found (o : OS) (apply : List String → Option Err)
    (self : Loader) (fuel : Nat)
    (herr : self.lookup.err = none)
    (hnf : self.lookup.lookupDir o fuel self.envFiles = .notFound) :
    Lookup.Lookup o self.lookup fuel self.envFiles = .ok [] ∧
    (∀ cbs, self.Load o apply fuel cbs =
      (match runCallbacks cbs with
       | none => .ok
       | some e => .fail e)) ∧
    self.Load o apply fuel [] = .ok := by
  have hlk : Lookup.Lookup o self.lookup fuel self.envFiles = .ok [] := by
    simp [Lookup.Lookup, herr, hnf]
  refine ⟨hlk, fun cbs => ?_, ?_⟩
  · simp only [Loader.Load, hlk]
    cases runCallbacks cbs <;> simp
  · simp [Loader.Load, hlk, runCallbacks]

/-- A Loader with depth limit 1 over the always-absent filesystem. -/
def loaderDepth1 : Loader := ⟨lookup0.WithDepth 1, ""⟩

/-- Witness for C5: nothing exists anywhere, depth limit 1; Lookup returns
empty with no error, and Load succeeds even under an apply collaborator
that would fail if invoked. -/
theorem C5_not_found_witness :
    Lookup.Lookup osSpin loaderDepth1.lookup 1 loaderDepth1.envFiles =
      .ok [] ∧
    Loader.Load osSpin (fun _ => some (.os "apply")) loaderDepth1 1 [] =
      .ok :=
  ⟨(C5_not_found osSpin (fun _ => some (.os "apply")) loaderDepth1 1
      rfl rfl).1,
   (C5_not_found osSpin (fun _ => some (.os "apply")) loaderDepth1 1
      rfl rfl).2.2⟩

/-- Running the callbacks returns none when all of them succeed. -/
theorem runCallbacks_all_none :
    ∀ (cbs : List (Option Err)), (∀ c ∈ cbs, c = none) →
      runCallbacks cbs = none := by
  intro cbs
  induction cbs with
  | nil =>
    intro _
    rfl
  | cons c rest ih =>
    intro h
    have hc := h c (List.mem_cons_self c rest)
    subst hc
    simp [runCallbacks, ih fun x hx => h x (List.mem_cons_of_mem _ hx)]

/-- Running the callbacks stops at the first failing one, whatever follows
it. -/
theorem runCallbacks_first_err :
    ∀ (pre : List (Option Err)) (e : Err) (rest : List (Option Err)),
      (∀ c ∈ pre, c = none) →
      runCallbacks (pre ++ some e :: rest) = some e := by
  intro pre
  induction pre with
  | nil =>
    intro e rest _
    rfl
  | cons c p ih =>
    intro e rest h
    have hc := h c (List.mem_cons_self c p)
    subst hc
    simp [runCallbacks, ih e rest fun x hx => h x (List.mem_cons_of_mem _ hx)]

/-- C7: when lookup found files and the apply step fails, Load returns the
wrapped apply error for every callback list (no callback runs); when the
apply step succeeds (or there were no files to apply), the first failing
callback decides the result whatever callbacks follow it, and Load
succeeds when all callbacks succeed. -/
theorem C7_load_callbacks (o : OS) (apply : List String → Option Err)
    (self : Loader) (fuel : Nat) (envs : List String)
    (hlk : Lookup.Lookup o self.lookup fuel self.envFiles = .ok envs) :
    (∀ e, 0 < envs.length → apply envs = some e →
      ∀ cbs, self.Load o apply fuel cbs =
        .fail (.godotenvFailed envs e)) ∧
    ((0 < envs.length → apply envs = none) →
      (∀ pre e rest, (∀ c ∈ pre, c = none) →
        self.Load o apply fuel (pre ++ some e :: rest) = .fail e) ∧
      (∀ cbs, (∀ c ∈ cbs, c = none) →
        self.Load o apply fuel cbs = .ok)) := by
  constructor
  · intro e hlen ha cbs
    simp [Loader.Load, hlk, hlen, ha]
  · intro hok
    have hnone : (if 0 < envs.length then
          match apply envs with
          | some e => some (Err.godotenvFailed envs e)
          | none => none
        else none) = none := by
      by_cases h : 0 < envs.length
      · simp [h, hok h]
      · simp [h]
    constructor
    · intro pre e rest hpre
      simp [Loader.Load, hlk, hnone, runCallbacks_first_err pre e rest hpre]
    · intro cbs hcbs
      simp [Loader.Load, hlk, hnone, runCallbacks_all_none cbs hcbs]

/-- A Loader that finds both default candidates in the starting dir. -/
def loaderBoth : Loader := ⟨lookupBoth, ""⟩

/-- Witness for C7: a failing apply makes Load fail with the wrapped error
regardless of the callbacks; with a succeeding apply, the first failing
callback decides, later callbacks are irrelevant, and all-success gives
ok. -/
theorem C7_load_callbacks_witness :
    Loader.Load osSpin (fun _ => some (.os "bad")) loaderBoth 1 [none] =
      .fail (.godotenvFailed [".env.local", ".env"] (.os "bad")) ∧
    Loader.Load osSpin (fun _ => none) loaderBoth 1
      ([] ++ some (.os "cb1") :: [none]) = .fail (.os "cb1") ∧
    Loader.Load osSpin (fun _ => none) loaderBoth 1 [none, none] = .ok :=
  ⟨(C7_load_callbacks osSpin (fun _ => some (.os "bad")) loaderBoth 1
      [".env.local", ".env"] rfl).1 (.os "bad") (by decide) rfl [none],
   ((C7_load_callbacks osSpin (fun _ => none) loaderBoth 1
      [".env.local", ".env"] rfl).2 (fun _ => rfl)).1 [] (.os "cb1") [none]
     (by intro c hc; exact absurd hc (List.not_mem_nil c)),
   ((C7_load_callbacks osSpin (fun _ => none) loaderBoth 1
      [".env.local", ".env"] rfl).2 (fun _ => rfl)).2 [none, none]
     (by decide)⟩

/-- Whether an error is the candidate-set wrap produced at lookup.go line
87 (the only place the candidate set is attached to an error). -/
def Err.isLookingFor : Err → Bool
  | .lookingFor _ _ => true
  | _ => false

/-- A stat function under which the first candidate exists and probing the
second fails with an arbitrary error. -/
def statC9 : String → StatRes := fun s =>
  if s = "a" then .ok else .err (.os "boom")

/-- A Lookup over statC9. -/
def lookupC9 : Lookup := { lookup0 with stat := statC9 }

/-- C9 counterexample: the walk finds candidate "a" in the starting dir, so
the re-probe of the full candidate set runs; probing "b" there fails, and
Lookup returns that probe error wrapped only with the probed path, not
with the candidate set: the returned error is not a lookingFor wrap, so
not every probe error propagates wrapped with the candidate set being
searched. -/
theorem C9_counterexample :
    Lookup.Lookup osSpin lookupC9 1 ["a", "b"] =
      .fail (.statFailed "b" (.os "boom")) ∧
    Err.isLookingFor (.statFailed "b" (.os "boom")) = false :=
  ⟨rfl, rfl⟩

/-- An error produced by FileExistsInDir is always the statFailed wrap of
the probed path. -/
theorem FileExistsInDir_error_shape (o : OS) (self : Lookup) (d n : String)
    (e : Err) (h : self.FileExistsInDir o d n = .error e) :
    ∃ path cause, e = .statFailed path cause := by
  simp only [Lookup.FileExistsInDir] at h
  split at h
  · exact absurd h (by simp)
  · exact absurd h (by simp)
  · exact ⟨_, _, (Except.error.injEq _ _ |>.mp h).symm⟩

/-- An error produced by the result-building loop is always a statFailed
wrap. -/
theorem collectFound_error_shape (o : OS) (self : Lookup) (dir : String) :
    ∀ (files : List String) (e : Err),
      Lookup.collectFound o self dir files = .error e →
      ∃ path cause, e = .statFailed path cause := by
  intro files
  induction files with
  | nil =>
    intro e h
    simp [Lookup.collectFound] at h
  | cons name rest ih =>
    intro e h
    unfold Lookup.collectFound at h
    cases hF : self.FileExistsInDir o dir name with
    | error e2 =>
      rw [hF] at h
      obtain rfl : e2 = e := Except.error.injEq _ _ |>.mp h
      exact FileExistsInDir_error_shape o self dir name e2 hF
    | ok b =>
      rw [hF] at h
      cases b with
      | true =>
        cases hR : Lookup.collectFound o self dir rest with
        | error e3 =>
          rw [hR] at h
          obtain rfl : e3 = e := Except.error.injEq _ _ |>.mp h
          exact ih e3 hR
        | ok found =>
          rw [hR] at h
          exact absurd h (by simp)
      | false => exact ih e h

/-- C9 amended: a probe error during the walk is fatal and is wrapped with
the candidate set being searched; a probe error during the result-building
re-probe is fatal and propagates immediately, but carries only the
statFailed wrap naming the probed path, without the candidate-set
context. -/
theorem C9_probe_errors (o : OS) (self : Lookup) (files : List String)
    (fuel : Nat) (herr : self.err = none) :
    (∀ e, self.lookupDir o fuel files = .fail e →
      Lookup.Lookup o self fuel files = .fail (.lookingFor files e)) ∧
    (∀ dir e, self.lookupDir o fuel files = .found dir →
      Lookup.collectFound o self dir files = .error e →
      Lookup.Lookup o self fuel files = .fail e) ∧
    (∀ dir e, Lookup.collectFound o self dir files = .error e →
      ∃ path cause, e = .statFailed path cause) := by
  refine ⟨fun e h => ?_, fun dir e hw hc => ?_, fun dir e hc => ?_⟩
  · simp [Lookup.Lookup, herr, h]
  · simp [Lookup.Lookup, herr, hw, hc]
  · exact collectFound_error_shape o self dir files e hc

/-- A Lookup whose stat always fails, so the walk itself errors. -/
def lookupAllErr : Lookup :=
  { lookup0 with stat := fun _ => .err (.os "boom") }

/-- Witness for the amended C9: a walk-phase probe error comes back wrapped
with the candidate set; a re-probe error comes back as the bare statFailed
wrap. -/
theorem C9_probe_errors_witness :
    Lookup.Lookup osSpin lookupAllErr 1 ["a"] =
      .fail (.lookingFor ["a"] (.statFailed "a" (.os "boom"))) ∧
    Lookup.Lookup osSpin lookupC9 1 ["a", "b"] =
      .fail (.statFailed "b" (.os "boom")) :=
  ⟨(C9_probe_errors osSpin lookupAllErr ["a"] 1 rfl).1
     (.statFailed "a" (.os "boom")) rfl,
   (C9_probe_errors osSpin lookupC9 ["a", "b"] 1 rfl).2.1 ""
     (.statFailed "b" (.os "boom")) rfl rfl⟩
